import Mathlib

/-
Verification of the compute/render double-buffering core of the 2D
bouncing-balls simulation (src/main.cpp, src/ball_def.h).

The development shallowly embeds the host-side code:
* `Ball` mirrors the `Ball` struct of src/main.cpp (three cl_float4
  fields); float components are modelled as rationals.
* `BufferManager` mirrors the class of src/main.cpp lines 73-136: two
  OpenCL state buffers (modelled as lists of balls), a read index and a
  write index.  A `cl_mem` handle is modelled as the index of the slot it
  designates.
* The per-generation compute work (`runGPUKernel`, `runCPUKernel`,
  `runStatsKernel`, lines 425-516) is embedded as state transformers on
  `BufferManager`, parameterized by the kernel bodies: the .cl kernel
  sources (cpu_kernel.cl, gpu_kernel.cl) are loaded at run time and are
  not part of src/, so their per-ball arithmetic is kept abstract except
  where a claim requires it, in which case it is modelled from the spec
  and marked as such.
* The compute/render handshake (lines 344-388 and 518-545) is embedded
  as an interleaved transition system `SStep` on scheduler states.
-/

/-- One cl_float4 value: four rational components. -/
structure ClFloat4 where
  s0 : ℚ
  s1 : ℚ
  s2 : ℚ
  s3 : ℚ
  deriving DecidableEq, Repr

/-- The `Ball` struct of src/main.cpp lines 14-18: position (x, y, radius,
padding), velocity (vx, vy, padding, padding), color (r, g, b, padding). -/
structure Ball where
  position : ClFloat4
  velocity : ClFloat4
  color : ClFloat4
  deriving DecidableEq, Repr

/-- A zero-initialized ball, standing for indeterminate freshly-allocated
buffer contents. -/
def defaultBall : Ball :=
  { position := ⟨0, 0, 0, 0⟩, velocity := ⟨0, 0, 0, 0⟩, color := ⟨0, 0, 0, 0⟩ }

/-- The `BufferManager` class state (src/main.cpp lines 73-136): the vector
`stateBuffers` of the two ball buffers, and the two slot labels
`currentRead` and `currentWrite`.  The mutex and command queue carry no
state visible at this level of abstraction. -/
structure BufferManager where
  stateBuffers : List (List Ball)
  currentRead : Nat
  currentWrite : Nat
  deriving DecidableEq, Repr

/-- Contents of the buffer designated by a handle (slot index); a
dangling handle yields the empty buffer. -/
def getBuffer (bm : BufferManager) (i : Nat) : List Ball :=
  bm.stateBuffers.getD i []

/-- Overwrite the buffer designated by a handle. -/
def setBuffer (bm : BufferManager) (i : Nat) (b : List Ball) : BufferManager :=
  { bm with stateBuffers := bm.stateBuffers.set i b }

/-- The `BufferManager` constructor (src/main.cpp lines 82-95): allocates
two buffers of `numBalls` balls each (contents indeterminate, modelled as
zero balls), sets `currentRead = 0`, `currentWrite = 1`.  No condition on
`numBalls` is checked. -/
def mkBufferManager (numBalls : Nat) : BufferManager :=
  { stateBuffers := [List.replicate numBalls defaultBall, List.replicate numBalls defaultBall],
    currentRead := 0,
    currentWrite := 1 }

/-- Number of `Ball` records the debug logging inside `swap` reads from the
front of the read slot (src/main.cpp lines 102-113: `sizeof(Ball) * 5`). -/
def swapDebugReadCount : Nat := 5

/-- Reading (`clEnqueueReadBuffer`) the first `count` balls of a buffer: succeeds
with the prefix when the requested range lies inside the buffer, and fails
with `CL_INVALID_VALUE` (which `checkError` turns into a thrown exception)
when the range exceeds the buffer size. -/
def enqueueReadBalls (buf : List Ball) (count : Nat) : Except String (List Ball) :=
  if count ≤ buf.length then Except.ok (buf.take count) else Except.error "CL_INVALID_VALUE"

/-- The member `BufferManager::swap` (src/main.cpp lines 97-123): under the lock it
reads the first `swapDebugReadCount` balls of the current read slot for
debug logging, exchanges the two indices (`std::swap(currentRead,
currentWrite)`), then reads the first `swapDebugReadCount` balls of the new
read slot for the after-swap log.  No buffer contents are written. -/
def BufferManager.swap (bm : BufferManager) : Except String BufferManager :=
  match enqueueReadBalls (getBuffer bm bm.currentRead) swapDebugReadCount with
  | Except.error e => Except.error e
  | Except.ok _ =>
    let bm2 : BufferManager :=
      { bm with currentRead := bm.currentWrite, currentWrite := bm.currentRead }
    match enqueueReadBalls (getBuffer bm2 bm2.currentRead) swapDebugReadCount with
    | Except.error e => Except.error e
    | Except.ok _ => Except.ok bm2

/-- The member `BufferManager::getReadBuffer` (src/main.cpp lines 125-129): locks,
logs, and unconditionally returns `stateBuffers[currentRead]`; the handle
is modelled as the slot index.  There is no failure path in the source, so
the result is always `ok`. -/
def BufferManager.getReadBuffer (bm : BufferManager) : Except String Nat :=
  Except.ok bm.currentRead

/-- The member `BufferManager::getWriteBuffer` (src/main.cpp lines 131-135): locks,
logs, and unconditionally returns `stateBuffers[currentWrite]`; the handle
is modelled as the slot index.  The source contains no assertion, error
return, or tracking of outstanding handles, so the result is always
`ok`. -/
def BufferManager.getWriteBuffer (bm : BufferManager) : Except String Nat :=
  Except.ok bm.currentWrite

/-- Two consecutive `getWriteBuffer` calls with no intervening release, as
a client violating the single-outstanding-handle precondition would
issue. -/
def doubleAcquireWrite (bm : BufferManager) :
    Except String Nat × Except String Nat :=
  (bm.getWriteBuffer, bm.getWriteBuffer)

/-- The member `BallSimulation::runGPUKernel` (src/main.cpp lines 455-494): clears the
flag buffer, fetches the write-slot handle via `getWriteBuffer`, and runs
the GPU physics kernel (`updateBallPhysics` of gpu_kernel.cl, not under
src/, hence the abstract parameter `gpu`) in place on that buffer.  No
other ball buffer is named in its argument list. -/
def runGPUKernel (gpu : List Ball → List Ball) (bm : BufferManager) : BufferManager :=
  let stateBuf := bm.currentWrite
  setBuffer bm stateBuf (gpu (getBuffer bm stateBuf))

/-- The member `BallSimulation::runCPUKernel` (src/main.cpp lines 425-453): fetches
both handles, then `clEnqueueCopyBuffer(cpuQueue, writeBuf, readBuf, ...)`
copies the whole write buffer over the read buffer, then runs the CPU
preparation kernel (`prepareBallData` of cpu_kernel.cl, not under src/,
hence the abstract parameter `prep`) with the read buffer as argument 0
and the write buffer as argument 1, taken here as input and output
respectively. -/
def runCPUKernel (prep : List Ball → List Ball → List Ball) (bm : BufferManager) :
    BufferManager :=
  let readBuf := bm.currentRead
  let writeBuf := bm.currentWrite
  let bm2 := setBuffer bm readBuf (getBuffer bm writeBuf)
  setBuffer bm2 writeBuf (prep (getBuffer bm2 readBuf) (getBuffer bm2 writeBuf))

/-- The member `BallSimulation::runStatsKernel` (src/main.cpp lines 496-516): resets
the four-int statistics buffer to zero and runs the CPU statistics kernel
(`processStatistics` of cpu_kernel.cl, not under src/, hence the abstract
parameter `statsK`) on the read buffer.  Note that nothing in the compute
loop ever calls this function. -/
def runStatsKernel (statsK : List Ball → List Int → List Int) (bm : BufferManager) :
    List Int :=
  statsK (getBuffer bm bm.currentRead) [0, 0, 0, 0]

/-! ## The compute-loop iteration body as an event trace

`BallSimulation::computeLoop` (src/main.cpp lines 365-388) runs, per
iteration: `waitForDisplay()`, `bufferManager->getWriteBuffer()`,
`runGPUKernel()`, `runCPUKernel()`, `bufferManager->swap()`,
`signalComputationComplete()`.  We embed one iteration as a function that
both transforms the buffer state and records the sequence of operations
performed, so that ordering claims can be stated on the recorded trace. -/

/-- The observable operations of one compute-loop iteration.  `runStats`
is included in the vocabulary because `runStatsKernel` exists in the
source (lines 496-516); whether it ever appears in a trace is a theorem
about the loop body. -/
inductive CEvent where
  | waitForDisplay
  | getWriteBuffer
  | runGPU
  | runCPU
  | runStats
  | swapBuffers
  | signalComputationComplete
  deriving DecidableEq, Repr

/-- One iteration of the compute loop body (src/main.cpp lines 367-382),
parameterized by the two kernel bodies.  Each executed statement appends
its event; a failed `swap` throws (the `catch` at line 384), so the
completion signal is only appended on success. -/
def computeIterationBody (gpu : List Ball → List Ball)
    (prep : List Ball → List Ball → List Ball) (bm : BufferManager) :
    Except String BufferManager × List CEvent :=
  let ev1 := [CEvent.waitForDisplay]
  let ev2 := ev1 ++ [CEvent.getWriteBuffer]
  let bm1 := runGPUKernel gpu bm
  let ev3 := ev2 ++ [CEvent.runGPU]
  let bm2 := runCPUKernel prep bm1
  let ev4 := ev3 ++ [CEvent.runCPU]
  match bm2.swap with
  | Except.error e => (Except.error e, ev4 ++ [CEvent.swapBuffers])
  | Except.ok bm3 =>
      (Except.ok bm3, ev4 ++ [CEvent.swapBuffers, CEvent.signalComputationComplete])

/-- The event trace of one compute iteration of the program as configured
(`numBalls = 5`, src/main.cpp line 180); the kernel bodies do not affect
the trace. -/
def computeTrace : List CEvent :=
  (computeIterationBody (fun b => b) (fun _ w => w) (mkBufferManager 5)).2

/-- Is an event one of the simulation passes (a kernel launch)? -/
def isSimPass : CEvent → Bool
  | CEvent.runGPU => true
  | CEvent.runCPU => true
  | CEvent.runStats => true
  | _ => false

/-! ## The handshake scheduler as an interleaved transition system

`BallSimulation` holds two booleans `computationComplete` and
`displayComplete` guarded by `stateMutex` with condition variables
(src/main.cpp lines 160-165, 518-541).  The compute loop (lines 365-388)
and the display loop (lines 344-363) each run
`while (!shouldStop()) { wait; work; signal }`.  Every flag operation is
performed under the mutex, so each is one atomic transition; the kernel
work between wait and signal is the `computing` (resp. `rendering`)
phase.  Ghost counters `cg` and `dg` count completion signals posted by
compute and consumed by the display loop; they correspond to no program
variable (the code keeps no generation counter) and only instrument the
model. -/

/-- Control location of the compute loop. -/
inductive CPhase where
  | atTop
  | waitingDisplay
  | computing
  | exited
  deriving DecidableEq, Repr

/-- Control location of the display loop. -/
inductive DPhase where
  | atTop
  | waitingCompute
  | rendering
  | exited
  deriving DecidableEq, Repr

/-- A scheduler state: the two handshake flags, the stop condition
(`glfwWindowShouldClose`, set by the environment), the two control
locations, and the two ghost generation counters. -/
structure Sched where
  computationComplete : Bool
  displayComplete : Bool
  stopFlag : Bool
  cph : CPhase
  dph : DPhase
  cg : Nat
  dg : Nat
  deriving DecidableEq, Repr

/-- The initial state (src/main.cpp line 180): `computationComplete =
false`, `displayComplete = true`, both loops at their top, nothing
completed yet. -/
def sched0 : Sched :=
  { computationComplete := false, displayComplete := true, stopFlag := false,
    cph := CPhase.atTop, dph := DPhase.atTop, cg := 0, dg := 0 }

/-- One interleaved step of the two loops or of the environment:
* `cTopGo`/`cTopExit`: the `!shouldStop()` test at the top of
  `computeLoop` (line 367);
* `cWait`: `waitForDisplay` (lines 525-529) succeeds only when
  `displayComplete` holds, and clears it under the mutex;
* `cSignal`: the iteration body finishes and `signalComputationComplete`
  (lines 531-535) sets `computationComplete`; ghost `cg` counts this as
  one completed generation;
* `dTopGo`/`dTopExit`: the `!shouldStop()` test at the top of
  `displayLoop` (line 346);
* `dWait`: `waitForComputation` (lines 519-523) succeeds only when
  `computationComplete` holds, and clears it; ghost `dg` counts this as
  one observed generation;
* `dSignal`: `render()` finishes and `signalDisplayComplete` (lines
  537-541) sets `displayComplete`;
* `stopReq`: the environment closes the window.
Note the wait predicates test only their completion flag, exactly as in
the source, and no transition posts a wake on exit. -/
inductive SStep : Sched → Sched → Prop where
  | cTopGo (s : Sched) : s.cph = CPhase.atTop → s.stopFlag = false →
      SStep s { s with cph := CPhase.waitingDisplay }
  | cTopExit (s : Sched) : s.cph = CPhase.atTop → s.stopFlag = true →
      SStep s { s with cph := CPhase.exited }
  | cWait (s : Sched) : s.cph = CPhase.waitingDisplay → s.displayComplete = true →
      SStep s { s with cph := CPhase.computing, displayComplete := false }
  | cSignal (s : Sched) : s.cph = CPhase.computing →
      SStep s { s with cph := CPhase.atTop, computationComplete := true, cg := s.cg + 1 }
  | dTopGo (s : Sched) : s.dph = DPhase.atTop → s.stopFlag = false →
      SStep s { s with dph := DPhase.waitingCompute }
  | dTopExit (s : Sched) : s.dph = DPhase.atTop → s.stopFlag = true →
      SStep s { s with dph := DPhase.exited }
  | dWait (s : Sched) : s.dph = DPhase.waitingCompute → s.computationComplete = true →
      SStep s { s with dph := DPhase.rendering, computationComplete := false,
                       dg := s.dg + 1 }
  | dSignal (s : Sched) : s.dph = DPhase.rendering →
      SStep s { s with dph := DPhase.atTop, displayComplete := true }
  | stopReq (s : Sched) : s.stopFlag = false →
      SStep s { s with stopFlag := true }

/-- States reachable from the initial state. -/
inductive Reach : Sched → Prop where
  | init : Reach sched0
  | step {s t : Sched} : Reach s → SStep s t → Reach t

/-- One if the flag is set, else zero. -/
def bNat (b : Bool) : Nat := if b then 1 else 0

/-- One while the compute loop is between a successful wait and its signal. -/
def ipC (s : Sched) : Nat := if s.cph = CPhase.computing then 1 else 0

/-- One while the display loop is between a successful wait and its signal. -/
def ipD (s : Sched) : Nat := if s.dph = DPhase.rendering then 1 else 0

/-- The handshake invariant: exactly one permission token circulates
(either a set flag or a loop holding it in its work phase), and the
number of generations compute has completed exceeds the number the
display loop has observed by exactly the pending `computationComplete`
signal. -/
def SchedInv (s : Sched) : Prop :=
  bNat s.displayComplete + bNat s.computationComplete + ipC s + ipD s = 1 ∧
  s.cg = s.dg + bNat s.computationComplete

/-- Decides whether any `SStep` transition is enabled in a state: each
disjunct is the guard of one constructor (the two loop-top tests are
together enabled whenever the loop is at its top). -/
def anyStepEnabled (s : Sched) : Bool :=
  decide (s.cph = CPhase.atTop) ||
  (decide (s.cph = CPhase.waitingDisplay) && s.displayComplete) ||
  decide (s.cph = CPhase.computing) ||
  decide (s.dph = DPhase.atTop) ||
  (decide (s.dph = DPhase.waitingCompute) && s.computationComplete) ||
  decide (s.dph = DPhase.rendering) ||
  !s.stopFlag

/-- A shutdown scenario after one complete generation: compute has run
generation 1 and signaled, the display loop has consumed and re-signaled
it and is blocked again in `waitForComputation`, the window was then
closed, and compute observed the stop at its loop top and exited without
any further signal. -/
def schedDeadlock : Sched :=
  { computationComplete := false, displayComplete := true, stopFlag := true,
    cph := CPhase.exited, dph := DPhase.waitingCompute, cg := 1, dg := 1 }

/-- Build a scheduler state from its seven fields, in declaration order. -/
def mkSched (cc dc st : Bool) (c : CPhase) (d : DPhase) (cg dg : Nat) : Sched :=
  ⟨cc, dc, st, c, d, cg, dg⟩

/-! ## The Integrate pass, modelled from the spec

Modelled from the spec: the Integrate pass body lives in gpu_kernel.cl
(`updateBallPhysics`), which the host loads at run time and which is not
under src/; only its caller `runGPUKernel` is.  Spec section 4.2 defines
the pass: apply a uniform gravitational acceleration to the vertical
velocity, advance the position by `velocity × deltaTime`, and reflect the
velocity component on any wall contact (elastic, coefficient 1.0), with
`deltaTime` clamped to an upper bound (50 ms) before use.  Components are
rationals standing for the kernel floats. -/

/-- Modelled from the spec: the 50 ms upper bound on `deltaTime` (spec
section 4.2, Integrate). -/
def maxDeltaTime : ℚ := 1 / 20

/-- Modelled from the spec: the clamp applied to `deltaTime` before the
Integrate pass uses it. -/
def clampDeltaTime (dt : ℚ) : ℚ := min dt maxDeltaTime

/-- A ball as the physics pass sees it: 2D position, 2D velocity, and a
radius (spec section 3, Particle). -/
structure PBall where
  px : ℚ
  py : ℚ
  vx : ℚ
  vy : ℚ
  radius : ℚ
  deriving DecidableEq, Repr

/-- Modelled from the spec: gravity accelerates the vertical velocity. -/
def applyGravity (gravity dt : ℚ) (b : PBall) : PBall :=
  { b with vy := b.vy + gravity * dt }

/-- Modelled from the spec: positions advance by `velocity × deltaTime`. -/
def advanceBall (dt : ℚ) (b : PBall) : PBall :=
  { b with px := b.px + b.vx * dt, py := b.py + b.vy * dt }

/-- Modelled from the spec: on wall contact the corresponding velocity
component is reflected elastically (coefficient 1.0); positions are left
to the Prepare pass to clamp. -/
def reflectWalls (width height : ℚ) (b : PBall) : PBall :=
  let vx2 := if b.px - b.radius < 0 ∨ b.px + b.radius > width then -b.vx else b.vx
  let vy2 := if b.py - b.radius < 0 ∨ b.py + b.radius > height then -b.vy else b.vy
  { b with vx := vx2, vy := vy2 }

/-- Modelled from the spec: one Integrate step on one ball — clamp the
time step, apply gravity, advance, reflect. -/
def integrateBall (gravity dt width height : ℚ) (b : PBall) : PBall :=
  let dtc := clampDeltaTime dt
  reflectWalls width height (advanceBall dtc (applyGravity gravity dtc b))

/-! ## Concrete inputs -/

/-- A distinguishable ball for the read slot of a one-ball store. -/
def ballA : Ball :=
  { position := ⟨1, 2, 20, 0⟩, velocity := ⟨3, 4, 0, 0⟩, color := ⟨1, 0, 0, 1⟩ }

/-- A distinguishable ball for the write slot of a one-ball store. -/
def ballB : Ball :=
  { position := ⟨5, 6, 20, 0⟩, velocity := ⟨7, 8, 0, 0⟩, color := ⟨0, 1, 0, 1⟩ }

/-- A store mid-run: read slot holds ball A, write slot holds ball B. -/
def bmC1 : BufferManager := ⟨[[ballA], [ballB]], 0, 1⟩

/-- The store as the program constructs it (`numBalls = 5`,
src/main.cpp line 180). -/
def bm5 : BufferManager := mkBufferManager 5

/-- The store `bm5` after one label swap. -/
def bm5swapped : BufferManager := ⟨bm5.stateBuffers, 1, 0⟩

/-- A scheduler state with compute mid-generation (its fourth). -/
def sC7 : Sched := mkSched false false false CPhase.computing DPhase.atTop 3 3

/-- The state `sC7` after compute signals completion of that generation. -/
def tC7 : Sched := mkSched true false false CPhase.atTop DPhase.atTop 4 3

/-- The spec's boundary-scenario ball: position (5, 50), velocity
(-20, 0), radius 10. -/
def pball0 : PBall := ⟨5, 50, -20, 0, 10⟩

/-! ## Theorems -/

theorem computeTrace_eq :
    computeTrace = [CEvent.waitForDisplay, CEvent.getWriteBuffer, CEvent.runGPU,
      CEvent.runCPU, CEvent.swapBuffers, CEvent.signalComputationComplete] := by
  rfl

/-- A successful `swap` call exchanges the two labels and leaves the buffer
vector untouched. -/
theorem swap_ok_spec {bm bm2 : BufferManager} (h : bm.swap = Except.ok bm2) :
    bm2.stateBuffers = bm.stateBuffers ∧ bm2.currentRead = bm.currentWrite ∧
      bm2.currentWrite = bm.currentRead := by
  unfold BufferManager.swap at h
  split at h
  · exact absurd h (by simp)
  · dsimp only at h
    split at h
    · exact absurd h (by simp)
    · cases h
      exact ⟨rfl, rfl, rfl⟩

theorem schedInv_init : SchedInv sched0 := by
  constructor <;> rfl

theorem schedInv_step {s t : Sched} (h : SStep s t) (hs : SchedInv s) : SchedInv t := by
  obtain ⟨h1, h2⟩ := hs
  cases h <;> obtain ⟨cc, dc, st, cph, dph, cg, dg⟩ := s <;>
    cases cc <;> cases dc <;> cases cph <;> cases dph <;>
    simp_all [SchedInv, bNat, ipC, ipD]

theorem schedInv_reach {s : Sched} (h : Reach s) : SchedInv s := by
  induction h with
  | init => exact schedInv_init
  | step _ hstep ih => exact schedInv_step hstep ih

/-- Soundness of `anyStepEnabled`: a state from which a transition exists
satisfies it, so a state falsifying it is stuck. -/
theorem anyStepEnabled_of_sstep {s t : Sched} (h : SStep s t) :
    anyStepEnabled s = true := by
  cases h <;> simp_all [anyStepEnabled]

theorem schedDeadlock_reachable : Reach schedDeadlock := by
  have r1 : Reach (mkSched false true false CPhase.atTop DPhase.waitingCompute 0 0) :=
    Reach.step Reach.init (SStep.dTopGo sched0 rfl rfl)
  have r2 : Reach (mkSched false true false CPhase.waitingDisplay DPhase.waitingCompute 0 0) :=
    Reach.step r1 (SStep.cTopGo _ rfl rfl)
  have r3 : Reach (mkSched false false false CPhase.computing DPhase.waitingCompute 0 0) :=
    Reach.step r2 (SStep.cWait _ rfl rfl)
  have r4 : Reach (mkSched true false false CPhase.atTop DPhase.waitingCompute 1 0) :=
    Reach.step r3 (SStep.cSignal _ rfl)
  have r5 : Reach (mkSched false false false CPhase.atTop DPhase.rendering 1 1) :=
    Reach.step r4 (SStep.dWait _ rfl rfl)
  have r6 : Reach (mkSched false true false CPhase.atTop DPhase.atTop 1 1) :=
    Reach.step r5 (SStep.dSignal _ rfl)
  have r7 : Reach (mkSched false true false CPhase.atTop DPhase.waitingCompute 1 1) :=
    Reach.step r6 (SStep.dTopGo _ rfl rfl)
  have r8 : Reach (mkSched false true true CPhase.atTop DPhase.waitingCompute 1 1) :=
    Reach.step r7 (SStep.stopReq _ rfl)
  exact Reach.step r8 (SStep.cTopExit _ rfl rfl)

/-- C1: the claim says each simulation pass writes only to the write
slot and no Compute-side operation between two swaps modifies the read
slot.  The code violates it: `runCPUKernel` begins with
`clEnqueueCopyBuffer(writeBuf, readBuf, ...)`, so after the two passes of
a generation the read slot holds the GPU output of the write slot
(first conjunct, for arbitrary kernel bodies), which differs from its
prior contents at the concrete store `bmC1` even with identity kernels
(second conjunct). -/
theorem C1_compute_mutates_read_slot :
    (∀ gpu prep,
      getBuffer (runCPUKernel prep (runGPUKernel gpu bmC1)) bmC1.currentRead =
        gpu (getBuffer bmC1 bmC1.currentWrite)) ∧
    getBuffer (runCPUKernel (fun _ w => w) (runGPUKernel (fun b => b) bmC1))
        bmC1.currentRead ≠
      getBuffer bmC1 bmC1.currentRead := by
  refine ⟨fun gpu prep => rfl, ?_⟩
  decide

/-- C2: the member `swap` exchanges only the read/write labels; it never copies or
alters particle data — the buffer vector of the result is exactly that of
the argument and the two indices are exchanged. -/
theorem C2_swap_is_pure_label_exchange (bm bm2 : BufferManager)
    (h : bm.swap = Except.ok bm2) :
    bm2.stateBuffers = bm.stateBuffers ∧ bm2.currentRead = bm.currentWrite ∧
      bm2.currentWrite = bm.currentRead :=
  swap_ok_spec h

/-- Witness for C2 at the store the program constructs. -/
theorem C2_swap_is_pure_label_exchange_witness :
    bm5swapped.stateBuffers = bm5.stateBuffers ∧
      bm5swapped.currentRead = bm5.currentWrite ∧
      bm5swapped.currentWrite = bm5.currentRead :=
  C2_swap_is_pure_label_exchange bm5 bm5swapped (by rfl)

/-- C3: in the compute-loop iteration the wait on the display comes
first, both kernel passes run before `swap`, `swap` directly precedes the
completion signal, and the completion signal is the last operation; swap
and signal each occur exactly once. -/
theorem C3_wait_passes_swap_signal_order :
    computeTrace.indexOf CEvent.waitForDisplay = 0 ∧
    computeTrace.indexOf CEvent.runGPU < computeTrace.indexOf CEvent.swapBuffers ∧
    computeTrace.indexOf CEvent.runCPU < computeTrace.indexOf CEvent.swapBuffers ∧
    computeTrace.indexOf CEvent.swapBuffers + 1 =
      computeTrace.indexOf CEvent.signalComputationComplete ∧
    computeTrace.indexOf CEvent.signalComputationComplete + 1 = computeTrace.length ∧
    computeTrace.count CEvent.swapBuffers = 1 ∧
    computeTrace.count CEvent.signalComputationComplete = 1 := by
  decide

/-- C4: in every reachable state of the interleaved handshake, the number
of generations the display loop has observed never exceeds the number
compute has completed, compute is never more than one generation ahead,
and the gap is exactly the pending `computationComplete` signal — so each
successful `waitForComputation` consumes the signal of generation
`dg + 1 = cg`: the display loop observes generations 1, 2, 3, ... exactly
once each, in order, regardless of interleaving. -/
theorem C4_bounded_slack (s : Sched) (h : Reach s) :
    s.dg ≤ s.cg ∧ s.cg ≤ s.dg + 1 ∧ s.cg = s.dg + bNat s.computationComplete := by
  obtain ⟨h1, h2⟩ := schedInv_reach h
  refine ⟨?_, ?_, h2⟩ <;>
    cases hc : s.computationComplete <;> simp [bNat, hc] at h2 <;> omega

/-- Witness for C4 at the initial state. -/
theorem C4_bounded_slack_witness :
    sched0.dg ≤ sched0.cg ∧ sched0.cg ≤ sched0.dg + 1 ∧
      sched0.cg = sched0.dg + bNat sched0.computationComplete :=
  C4_bounded_slack sched0 Reach.init

/-- C5 counterexample: the claim says every generation runs
Prepare → Integrate → Stats.  In the compute loop as written, the Stats
kernel is never launched at all, and the GPU physics (Integrate) kernel
runs before the CPU preparation kernel. -/
theorem C5_counterexample :
    CEvent.runStats ∉ computeTrace ∧
    computeTrace.indexOf CEvent.runGPU < computeTrace.indexOf CEvent.runCPU := by
  decide

/-- C5 amended: every compute generation runs exactly two passes, in the
fixed order GPU physics (Integrate) then CPU preparation; the Stats pass
exists in the source but is never invoked. -/
theorem C5_two_passes_gpu_then_cpu :
    computeTrace.filter isSimPass = [CEvent.runGPU, CEvent.runCPU] := by
  decide

/-- C6: the claim says a stop request always wakes a blocked participant
and shutdown never deadlocks.  The code posts no final wake: here a
reachable state in which the stop flag is set, compute has exited, and
the display loop is still blocked in `waitForComputation` with
`computationComplete = false`; no transition is enabled, so the display
loop never exits. -/
theorem C6_shutdown_deadlock :
    Reach schedDeadlock ∧ anyStepEnabled schedDeadlock = false ∧
    schedDeadlock.stopFlag = true ∧ schedDeadlock.cph = CPhase.exited ∧
    schedDeadlock.dph = DPhase.waitingCompute ∧
    schedDeadlock.computationComplete = false :=
  ⟨schedDeadlock_reachable, by decide, rfl, rfl, rfl, rfl⟩

/-- C7 counterexample: the claim says each slot owns a generation counter
that strictly increases by 1 per completed compute cycle.  The
`BufferManager` state holds no such counter: after the two swaps of two
completed cycles the store returns exactly to its prior state (shown
concretely on the program's own store), so no natural-number function of
the store can grow by 1 at every completed swap. -/
theorem C7_counterexample :
    (bm5.swap = Except.ok bm5swapped ∧ bm5swapped.swap = Except.ok bm5) ∧
    ¬ ∃ f : BufferManager → ℕ, ∀ bm bm2 : BufferManager,
        bm.swap = Except.ok bm2 → f bm2 = f bm + 1 := by
  refine ⟨⟨rfl, rfl⟩, ?_⟩
  rintro ⟨f, hf⟩
  have h1 := hf bm5 bm5swapped rfl
  have h2 := hf bm5swapped bm5 rfl
  omega

/-- C7 amended: the store keeps no per-slot generation counter — a
completed swap only exchanges the labels, and two completed swaps restore
the store exactly; a generation count exists only implicitly in the
scheduler, whose ghost counter `cg` changes only when compute completes a
cycle and then by exactly 1. -/
theorem C7_no_slot_generation_counter (bm bm1 bm2 : BufferManager) (s t : Sched)
    (h1 : bm.swap = Except.ok bm1) (h2 : bm1.swap = Except.ok bm2)
    (h3 : SStep s t) (h4 : t.cg ≠ s.cg) :
    bm2 = bm ∧ t.cg = s.cg + 1 ∧ s.cph = CPhase.computing := by
  obtain ⟨e1, e2, e3⟩ := swap_ok_spec h1
  obtain ⟨f1, f2, f3⟩ := swap_ok_spec h2
  refine ⟨?_, ?_, ?_⟩
  · cases bm; cases bm2; simp_all
  · cases h3 <;> simp_all
  · cases h3 <;> simp_all

/-- Witness for C7 amended: the double swap on the program's store and
the completion step out of `sC7`. -/
theorem C7_no_slot_generation_counter_witness :
    bm5 = bm5 ∧ tC7.cg = sC7.cg + 1 ∧ sC7.cph = CPhase.computing :=
  C7_no_slot_generation_counter bm5 bm5swapped bm5 sC7 tC7 rfl rfl
    (SStep.cSignal sC7 rfl) (by decide)

/-- C8 (spec-modelled, gpu_kernel.cl is not under src/): the Integrate
pass uses the clamped time step `min dt maxDeltaTime`, which never
exceeds the 50 ms bound, so for any nonnegative frame time the per-step
displacement of every ball is bounded: horizontally by
`|vx| · maxDeltaTime` and vertically by
`(|vy| + |gravity| · maxDeltaTime) · maxDeltaTime`. -/
theorem C8_deltaTime_clamped (gravity dt width height : ℚ) (b : PBall)
    (h : 0 ≤ dt) :
    clampDeltaTime dt ≤ maxDeltaTime ∧ 0 ≤ clampDeltaTime dt ∧
    |(integrateBall gravity dt width height b).px - b.px| ≤ |b.vx| * maxDeltaTime ∧
    |(integrateBall gravity dt width height b).py - b.py| ≤
      (|b.vy| + |gravity| * maxDeltaTime) * maxDeltaTime := by
  have hmax : (0:ℚ) ≤ maxDeltaTime := by norm_num [maxDeltaTime]
  have hdtc1 : clampDeltaTime dt ≤ maxDeltaTime := min_le_right _ _
  have hdtc0 : 0 ≤ clampDeltaTime dt := le_min h hmax
  refine ⟨hdtc1, hdtc0, ?_, ?_⟩
  · have hpx : (integrateBall gravity dt width height b).px =
        b.px + b.vx * clampDeltaTime dt := rfl
    rw [hpx, add_sub_cancel_left, abs_mul, abs_of_nonneg hdtc0]
    exact mul_le_mul_of_nonneg_left hdtc1 (abs_nonneg _)
  · have hpy : (integrateBall gravity dt width height b).py =
        b.py + (b.vy + gravity * clampDeltaTime dt) * clampDeltaTime dt := rfl
    rw [hpy, add_sub_cancel_left, abs_mul, abs_of_nonneg hdtc0]
    have hg := mul_le_mul_of_nonneg_left hdtc1 (abs_nonneg gravity)
    have hv : |b.vy + gravity * clampDeltaTime dt| ≤
        |b.vy| + |gravity| * maxDeltaTime := by
      calc |b.vy + gravity * clampDeltaTime dt|
          ≤ |b.vy| + |gravity * clampDeltaTime dt| := abs_add _ _
        _ = |b.vy| + |gravity| * clampDeltaTime dt := by
              rw [abs_mul, abs_of_nonneg hdtc0]
        _ ≤ |b.vy| + |gravity| * maxDeltaTime := by linarith
    exact mul_le_mul hv hdtc1 hdtc0
      (add_nonneg (abs_nonneg _) (mul_nonneg (abs_nonneg _) hmax))

/-- Witness for C8: the spec's boundary-scenario ball with the program's
gravity and a 100 ms frame time. -/
theorem C8_deltaTime_clamped_witness :
    clampDeltaTime (1/10) ≤ maxDeltaTime ∧ 0 ≤ clampDeltaTime (1/10) ∧
    |(integrateBall (-981/10) (1/10) 800 600 pball0).px - pball0.px| ≤
      |pball0.vx| * maxDeltaTime ∧
    |(integrateBall (-981/10) (1/10) 800 600 pball0).py - pball0.py| ≤
      (|pball0.vy| + |(-981/10 : ℚ)| * maxDeltaTime) * maxDeltaTime :=
  C8_deltaTime_clamped (-981/10) (1/10) 800 600 pball0 (by norm_num)

/-- C9 counterexample: the claim says a second `acquireWrite` with the
first handle outstanding fails fast with a diagnostic.  In the code a
second `getWriteBuffer` call simply succeeds and hands out the same
write-slot handle again, with no error path at all. -/
theorem C9_counterexample :
    doubleAcquireWrite bm5 = (Except.ok 1, Except.ok 1) := rfl

/-- C9 amended: the member `getWriteBuffer` performs no outstanding-handle tracking
and has no failure path: every call — including a repeated call with the
previous handle still held — returns the current write slot's handle. -/
theorem C9_acquire_write_never_fails (bm : BufferManager) :
    bm.getWriteBuffer = Except.ok bm.currentWrite ∧
    doubleAcquireWrite bm = (Except.ok bm.currentWrite, Except.ok bm.currentWrite) :=
  ⟨rfl, rfl⟩

/-- Witness for C9 amended at the program's store. -/
theorem C9_acquire_write_never_fails_witness :
    bm5.getWriteBuffer = Except.ok bm5.currentWrite ∧
    doubleAcquireWrite bm5 = (Except.ok bm5.currentWrite, Except.ok bm5.currentWrite) :=
  C9_acquire_write_never_fails bm5

/-- C10: the constructor builds a store for every requested ball count
without any check (first conjunct, definitional), and `swap` — which
unconditionally reads the first `swapDebugReadCount = 5` ball records of
the read slot before and after the label exchange — stays within bounds
exactly when the store holds at least 5 balls. -/
theorem C10_swap_requires_five_balls (n : Nat) :
    (mkBufferManager n).stateBuffers =
      [List.replicate n defaultBall, List.replicate n defaultBall] ∧
    ((∃ bm2, (mkBufferManager n).swap = Except.ok bm2) ↔ swapDebugReadCount ≤ n) := by
  refine ⟨rfl, ?_⟩
  constructor
  · rintro ⟨bm2, h⟩
    by_contra hn
    have hn5 : ¬ 5 ≤ n := hn
    unfold BufferManager.swap enqueueReadBalls at h
    simp [getBuffer, mkBufferManager, swapDebugReadCount, hn5] at h
  · intro h5
    have h5n : (5:Nat) ≤ n := h5
    refine ⟨⟨(mkBufferManager n).stateBuffers, 1, 0⟩, ?_⟩
    unfold BufferManager.swap enqueueReadBalls
    simp [getBuffer, mkBufferManager, swapDebugReadCount, h5n]

/-- Witness for C10 at ball counts 3 (out of bounds) and 5 (in
bounds). -/
theorem C10_swap_requires_five_balls_witness :
    ((mkBufferManager 3).stateBuffers =
      [List.replicate 3 defaultBall, List.replicate 3 defaultBall] ∧
    ((∃ bm2, (mkBufferManager 3).swap = Except.ok bm2) ↔ swapDebugReadCount ≤ 3)) ∧
    ((mkBufferManager 5).stateBuffers =
      [List.replicate 5 defaultBall, List.replicate 5 defaultBall] ∧
    ((∃ bm2, (mkBufferManager 5).swap = Except.ok bm2) ↔ swapDebugReadCount ≤ 5)) :=
  ⟨C10_swap_requires_five_balls 3, C10_swap_requires_five_balls 5⟩
